import Mathlib

/-
Verification of the safe arithmetic-expression evaluator in src/Calculator.py.

The source program parses an input string with Python's ast.parse(mode="eval")
and reduces the resulting tree with a recursive _eval that dispatches binary and
unary operators through the whitelist dict _OPERATORS.  This file gives a
shallow embedding: Python values are modelled with Int for int, Rat for float
(exact rationals standing in for the host's binary doubles), Bool for bool and
String for str; Python exceptions become an explicit error type; the fragment of
the host parser that the program relies on is modelled as an executable
tokenizer and recursive-descent parser over the grammar CPython uses for the
constructs the calculator can encounter.
-/

namespace Calculator

/-! ## Values

Python runtime values that a Constant node can carry or that evaluation can
produce.  Floats are modelled as exact rationals: every literal and every
arithmetic step that the claims exercise is exactly representable, so the
rational model agrees with the host doubles there. -/

inductive PyVal where
  | int (n : ℤ)
  | float (q : ℚ)
  | bool (b : Bool)
  | str (s : String)
  | none

/-- Models Python's isinstance(v, (int, float)) test on a constant's value.
Crucially, bool is a subclass of int in Python, so booleans pass this check. -/
def isinstance_int_float : PyVal → Bool
  | .int _ => true
  | .float _ => true
  | .bool _ => true
  | _ => false

/-- A Python number as seen by the arithmetic operators: either an int (which is
how bools behave arithmetically) or a float. -/
inductive NumV where
  | i (z : ℤ)
  | f (q : ℚ)

/-- Numeric view of a value: int and float are themselves; bool coerces to 0/1
exactly as Python's arithmetic does; str and None are not numbers. -/
def toNum : PyVal → Option NumV
  | .int n => some (.i n)
  | .float q => some (.f q)
  | .bool b => some (.i (if b then 1 else 0))
  | _ => Option.none

/-- A number's value as a rational (how Python promotes an int operand when the
other operand is a float). -/
def toQ : NumV → ℚ
  | .i z => (z : ℚ)
  | .f q => q

/-- Recognises a proper number (int or float) as opposed to bool, str or None.
Evaluation of a tree in the arithmetic fragment only ever produces these. -/
def isIF : PyVal → Bool
  | .int _ => true
  | .float _ => true
  | _ => false

/-- A numeric value equal to zero: int 0, float 0.0, or False (which Python's
arithmetic treats as 0). -/
def isZeroNumeric (v : PyVal) : Bool :=
  match toNum v with
  | some n => decide (toQ n = 0)
  | Option.none => false

/-- Monomial natural-number power on ℤ, written out so that it reduces by rfl. -/
def znpow (a : ℤ) : ℕ → ℤ
  | 0 => 1
  | n + 1 => znpow a n * a

/-- Natural-number power on ℚ, written out so that it reduces by rfl. -/
def qnpow (q : ℚ) : ℕ → ℚ
  | 0 => 1
  | n + 1 => qnpow q n * q

/-- Integer power on ℚ: inverse of the positive power for negative exponents. -/
def qzpow (q : ℚ) (e : ℤ) : ℚ :=
  if 0 ≤ e then qnpow q e.toNat else (qnpow q (-e).toNat)⁻¹

/-- Floor of a rational, via floor division of numerator by denominator. -/
def ratFloor (q : ℚ) : ℤ := Int.fdiv q.num q.den

/-! ## Errors

The exception types the program can raise.  valueError is the evaluator's own
error kind: every raise statement in _eval and safe_eval constructs a ValueError.
zeroDivisionError is the host arithmetic's divide-by-zero exception, which
op.truediv / op.floordiv / op.mod / op.pow raise and nothing in the source
catches.  typeError models the host's complaint about non-numeric operands (it
is unreachable from _eval, which rejects non-numeric constants first).
unmodelled marks host floating-point results outside the exact rational model
(a non-integral exponent produces an irrational or complex double); no claim
depends on these. -/

inductive PyErr where
  | valueError (msg : String)
  | zeroDivisionError
  | typeError (msg : String)
  | unmodelled (msg : String)

/-- True exactly for the evaluator's own error kind (ValueError). -/
def isValueError : PyErr → Bool
  | .valueError _ => true
  | _ => false

/-! ## Operator functions

Models of the operator module functions stored in _OPERATORS.  Each follows
Python numeric semantics: int op int stays int (bool behaving as 0/1), any
float operand promotes to float; true division always produces a float; a zero
right operand of / // % raises ZeroDivisionError, as does a negative power of
zero.  The typeError branches are unreachable from _eval because non-numeric
constants are rejected before any operator runs. -/

/-- The value a numeric computation hands back to the expression level. -/
def ofNum : NumV → PyVal
  | .i z => .int z
  | .f q => .float q

/-- Lifts a numeric binary function to values: both operands are viewed as
numbers (the typeError branch for non-numbers is unreachable from _eval, which
rejects non-numeric constants before any operator runs). -/
def liftBin (fN : NumV → NumV → Except PyErr NumV) (msg : String)
    (v1 v2 : PyVal) : Except PyErr PyVal :=
  match toNum v1, toNum v2 with
  | some a, some b => (fN a b).map ofNum
  | _, _ => .error (.typeError msg)

/-- Lifts a numeric unary function to values. -/
def liftUn (fN : NumV → Except PyErr NumV) (msg : String) (v : PyVal) :
    Except PyErr PyVal :=
  match toNum v with
  | some a => (fN a).map ofNum
  | Option.none => .error (.typeError msg)

/-- Numeric addition: int + int stays int, a float operand promotes. -/
def pyAddN : NumV → NumV → Except PyErr NumV
  | .i a, .i b => .ok (.i (a + b))
  | a, b => .ok (.f (toQ a + toQ b))

/-- Numeric subtraction. -/
def pySubN : NumV → NumV → Except PyErr NumV
  | .i a, .i b => .ok (.i (a - b))
  | a, b => .ok (.f (toQ a - toQ b))

/-- Numeric multiplication. -/
def pyMultN : NumV → NumV → Except PyErr NumV
  | .i a, .i b => .ok (.i (a * b))
  | a, b => .ok (.f (toQ a * toQ b))

/-- Numeric true division: always a float result; a zero divisor raises
ZeroDivisionError (Python raises rather than returning an infinity or NaN). -/
def pyDivN (a b : NumV) : Except PyErr NumV :=
  if toQ b = 0 then .error .zeroDivisionError
  else .ok (.f (toQ a / toQ b))

/-- Numeric floor division: int on two ints, integral float otherwise; a zero
divisor raises ZeroDivisionError. -/
def pyFloorDivN (a b : NumV) : Except PyErr NumV :=
  if toQ b = 0 then .error .zeroDivisionError
  else
    match a, b with
    | .i x, .i y => .ok (.i (Int.fdiv x y))
    | _, _ => .ok (.f ((ratFloor (toQ a / toQ b) : ℤ) : ℚ))

/-- Numeric modulo with the sign convention of floor division; a zero divisor
raises ZeroDivisionError. -/
def pyModN (a b : NumV) : Except PyErr NumV :=
  if toQ b = 0 then .error .zeroDivisionError
  else
    match a, b with
    | .i x, .i y => .ok (.i (Int.fmod x y))
    | _, _ => .ok (.f (toQ a - toQ b * (ratFloor (toQ a / toQ b) : ℚ)))

/-- Host floating-point exponentiation with a float involved.  Exact in the
rational model when the exponent is integral; a non-integral exponent yields an
irrational (or, for a negative base, complex) double, marked unmodelled.  A
negative power of zero raises ZeroDivisionError, as in the host. -/
def floatPowN (q1 q2 : ℚ) : Except PyErr NumV :=
  if q2.den = 1 then
    if q2.num < 0 ∧ q1 = 0 then .error .zeroDivisionError
    else .ok (.f (qzpow q1 q2.num))
  else .error (.unmodelled "non-integral floating-point exponent")

/-- Numeric exponentiation: int ** nonnegative int stays int; a negative int
exponent produces a float (or ZeroDivisionError for base zero); any float
operand goes through host float exponentiation. -/
def pyPowN : NumV → NumV → Except PyErr NumV
  | .i a, .i b =>
      if 0 ≤ b then .ok (.i (znpow a b.toNat))
      else if a = 0 then .error .zeroDivisionError
      else .ok (.f (qzpow (a : ℚ) b))
  | a, b => floatPowN (toQ a) (toQ b)

/-- Models operator.add on the values that can reach it. -/
def pyAdd : PyVal → PyVal → Except PyErr PyVal :=
  liftBin pyAddN "unsupported operand type(s) for +"

/-- Models operator.sub. -/
def pySub : PyVal → PyVal → Except PyErr PyVal :=
  liftBin pySubN "unsupported operand type(s) for -"

/-- Models operator.mul. -/
def pyMult : PyVal → PyVal → Except PyErr PyVal :=
  liftBin pyMultN "unsupported operand type(s) for *"

/-- Models operator.truediv. -/
def pyDiv : PyVal → PyVal → Except PyErr PyVal :=
  liftBin pyDivN "unsupported operand type(s) for /"

/-- Models operator.floordiv. -/
def pyFloorDiv : PyVal → PyVal → Except PyErr PyVal :=
  liftBin pyFloorDivN "unsupported operand type(s) for //"

/-- Models operator.mod. -/
def pyMod : PyVal → PyVal → Except PyErr PyVal :=
  liftBin pyModN "unsupported operand type(s) for %"

/-- Models operator.pow. -/
def pyPow : PyVal → PyVal → Except PyErr PyVal :=
  liftBin pyPowN "unsupported operand type(s) for **"

/-- Models operator.pos: identity on numbers, with bool promoted to int. -/
def pyPos : PyVal → Except PyErr PyVal :=
  liftUn (fun a => .ok a) "bad operand type for unary +"

/-- Models operator.neg: negation on numbers, with bool promoted to int. -/
def pyNeg : PyVal → Except PyErr PyVal :=
  liftUn (fun a => match a with
    | .i z => .ok (.i (-z))
    | .f q => .ok (.f (-q))) "bad operand type for unary -"

/-! ## Syntax trees

The fragment of Python's ast node zoo that ast.parse(mode="eval") can produce
for the inputs this development examines.  BinOp carries an operator class tag;
BitOr is a tag ast.parse accepts ("1|2") that the whitelist _OPERATORS does not
contain, and likewise Not for unary operators.  Call, Compare, BoolOp and Name
are well-formed parser outputs that _eval rejects. -/

inductive BinOp where
  | Add | Sub | Mult | Div | FloorDiv | Mod | Pow | BitOr

inductive UnOp where
  | UAdd | USub | Not

inductive CmpOp where
  | Eq

inductive BoolOpK where
  | And | Or

inductive PyExpr where
  | const (v : PyVal)
  | binOp (left : PyExpr) (op : BinOp) (right : PyExpr)
  | unaryOp (op : UnOp) (operand : PyExpr)
  | call (func : PyExpr) (args : List PyExpr)
  | compare (left : PyExpr) (ops : List CmpOp) (comparators : List PyExpr)
  | boolOp (op : BoolOpK) (values : List PyExpr)
  | name (id : String)

/-- Python's type(node.op).__name__ for binary operator classes. -/
def binOpClassName : BinOp → String
  | .Add => "Add"
  | .Sub => "Sub"
  | .Mult => "Mult"
  | .Div => "Div"
  | .FloorDiv => "FloorDiv"
  | .Mod => "Mod"
  | .Pow => "Pow"
  | .BitOr => "BitOr"

/-- Python's type(node.op).__name__ for unary operator classes. -/
def unOpClassName : UnOp → String
  | .UAdd => "UAdd"
  | .USub => "USub"
  | .Not => "Not"

/-- Python's type(node).__name__ for the node kinds _eval can fall through to. -/
def nodeTypeName : PyExpr → String
  | .const _ => "Constant"
  | .binOp _ _ _ => "BinOp"
  | .unaryOp _ _ => "UnaryOp"
  | .call _ _ => "Call"
  | .compare _ _ _ => "Compare"
  | .boolOp _ _ => "BoolOp"
  | .name _ => "Name"

/-! ## The operator whitelist

The source's _OPERATORS is one dict keyed by ast operator classes, holding both
binary (Add..Pow) and unary (UAdd, USub) entries.  The embedding splits it by
arity so each entry has a precise type; membership is modelled by Option.
BitOr and Not are absent, exactly as in the source dict. -/

def _OPERATORS_binary : BinOp → Option (PyVal → PyVal → Except PyErr PyVal)
  | .Add => some pyAdd
  | .Sub => some pySub
  | .Mult => some pyMult
  | .Div => some pyDiv
  | .FloorDiv => some pyFloorDiv
  | .Mod => some pyMod
  | .Pow => some pyPow
  | .BitOr => Option.none

def _OPERATORS_unary : UnOp → Option (PyVal → Except PyErr PyVal)
  | .UAdd => some pyPos
  | .USub => some pyNeg
  | .Not => Option.none

/-! ## The evaluator -/

/-- The source's _eval, clause for clause: a Constant is returned if its value
passes isinstance(v, (int, float)) and rejected with a ValueError otherwise; a
BinOp evaluates left then right, then looks its operator class up in
_OPERATORS, raising a ValueError when absent; a UnaryOp likewise; a Call is
rejected outright; every other node kind falls through to the final raise.
The ast.Expression wrapper that the source unwraps first is dropped here:
parse below returns the wrapped body directly.  (The source's ast.Num branch is
dead code on Python 3.8+, where numeric literals are Constant nodes and the
Constant branch fires first, so it has no counterpart in the model.) -/
def _eval : PyExpr → Except PyErr PyVal
  | .const v =>
      if isinstance_int_float v then .ok v
      else .error (.valueError "Only numeric constants are allowed")
  | .binOp l o r =>
      match _eval l with
      | .error e => .error e
      | .ok left =>
          match _eval r with
          | .error e => .error e
          | .ok right =>
              match _OPERATORS_binary o with
              | some f => f left right
              | Option.none =>
                  .error (.valueError ("Unsupported binary operator: " ++ binOpClassName o))
  | .unaryOp o e =>
      match _eval e with
      | .error er => .error er
      | .ok operand =>
          match _OPERATORS_unary o with
          | some f => f operand
          | Option.none =>
              .error (.valueError ("Unsupported unary operator: " ++ unOpClassName o))
  | .call _ _ => .error (.valueError "Function calls are not allowed")
  | e => .error (.valueError ("Unsupported expression: " ++ nodeTypeName e))

/-! ## Tokenizer

Models the fragment of CPython's lexer that the calculator's inputs can
exercise: integer and decimal numeric literals (with optional exponent),
single-quoted string literals, identifiers and the keywords True/False/None/
and/or/not, the operator tokens + - * / // % ** | == ( ) , and whitespace.
A float literal is stored as the exact rational the digits denote (the host
would round it to the nearest double; every literal in this development is
exactly representable).  Any other character is a lexical error, which
ast.parse would also reject with a SyntaxError. -/

inductive Tok where
  | num (v : PyVal)
  | str (s : String)
  | ident (s : String)
  | kwTrue | kwFalse | kwNone | kwAnd | kwOr | kwNot
  | plus | minus | star | slash | dslash | percent | dstar | pipe
  | eqeq | lparen | rparen | comma

/-- Numeric value of a digit run. -/
def digitsToNat (ds : List Char) : ℕ :=
  ds.foldl (fun a c => 10 * a + (c.toNat - Char.toNat '0')) 0

/-- Lexes one numeric literal at the head of the input (which starts with a
digit or a dot followed by a digit): digits, an optional fractional part, an
optional exponent.  Returns the literal's value and the remaining characters. -/
def lexNumber (cs : List Char) : Except String (PyVal × List Char) :=
  let ip := cs.takeWhile Char.isDigit
  let r1 := cs.dropWhile Char.isDigit
  let hasDot := match r1 with
    | '.' :: _ => true
    | _ => false
  let afterDot := match r1 with
    | '.' :: t => t
    | _ => r1
  let fp := if hasDot then afterDot.takeWhile Char.isDigit else []
  let r2 := if hasDot then afterDot.dropWhile Char.isDigit else r1
  if ip.length + fp.length = 0 then .error "invalid number"
  else
    let mant : ℤ := (digitsToNat (ip ++ fp) : ℤ)
    let scale : ℤ := (fp.length : ℤ)
    match r2 with
    | 'e' :: t => lexExponent mant scale hasDot t
    | 'E' :: t => lexExponent mant scale hasDot t
    | _ =>
        if hasDot then .ok (.float ((mant : ℚ) * qzpow 10 (-scale)), r2)
        else .ok (.int mant, r2)
where
  /-- The exponent suffix: an optional sign and at least one digit; the result
  is always a float in Python. -/
  lexExponent (mant scale : ℤ) (_hasDot : Bool) (t : List Char) :
      Except String (PyVal × List Char) :=
    let sign : ℤ := match t with
      | '-' :: _ => -1
      | _ => 1
    let t1 := match t with
      | '-' :: u => u
      | '+' :: u => u
      | _ => t
    let ed := t1.takeWhile Char.isDigit
    let r3 := t1.dropWhile Char.isDigit
    if ed.length = 0 then .error "invalid exponent"
    else .ok (.float ((mant : ℚ) * qzpow 10 (sign * (digitsToNat ed : ℤ) - scale)), r3)

/-- Character class for the start of an identifier or keyword. -/
def isIdentStart (c : Char) : Bool := c.isAlpha || c = '_'

/-- Character class for the continuation of an identifier or keyword. -/
def isIdentChar (c : Char) : Bool := c.isAlphanum || c = '_'

/-- Keywords become dedicated tokens; anything else is a Name. -/
def identToken (s : String) : Tok :=
  if s = "True" then .kwTrue
  else if s = "False" then .kwFalse
  else if s = "None" then .kwNone
  else if s = "and" then .kwAnd
  else if s = "or" then .kwOr
  else if s = "not" then .kwNot
  else .ident s

/-- Fuel-indexed lexer loop; each step consumes at least one character, so fuel
equal to the input length plus one always suffices. -/
def tokenizeF : ℕ → List Char → Except String (List Tok)
  | 0, _ => .error "lexer fuel exhausted"
  | _, [] => .ok []
  | f + 1, c :: cs =>
      if c = ' ' ∨ c = '\t' then tokenizeF f cs
      else if c.isDigit then
        match lexNumber (c :: cs) with
        | .error e => .error e
        | .ok (v, rest) =>
            match tokenizeF f rest with
            | .error e => .error e
            | .ok ts => .ok (.num v :: ts)
      else if c = '.' then
        match cs with
        | d :: _ =>
            if d.isDigit then
              match lexNumber (c :: cs) with
              | .error e => .error e
              | .ok (v, rest) =>
                  match tokenizeF f rest with
                  | .error e => .error e
                  | .ok ts => .ok (.num v :: ts)
            else .error "invalid syntax"
        | [] => .error "invalid syntax"
      else if isIdentStart c then
        let id := String.mk ((c :: cs).takeWhile isIdentChar)
        let rest := (c :: cs).dropWhile isIdentChar
        match tokenizeF f rest with
        | .error e => .error e
        | .ok ts => .ok (identToken id :: ts)
      else if c = '\'' then
        let body := cs.takeWhile (fun d => d ≠ '\'')
        match cs.dropWhile (fun d => d ≠ '\'') with
        | '\'' :: rest =>
            match tokenizeF f rest with
            | .error e => .error e
            | .ok ts => .ok (.str (String.mk body) :: ts)
        | _ => .error "unterminated string literal"
      else if c = '*' then
        match cs with
        | '*' :: rest => (tokenizeF f rest).map (fun ts => .dstar :: ts)
        | _ => (tokenizeF f cs).map (fun ts => .star :: ts)
      else if c = '/' then
        match cs with
        | '/' :: rest => (tokenizeF f rest).map (fun ts => .dslash :: ts)
        | _ => (tokenizeF f cs).map (fun ts => .slash :: ts)
      else if c = '=' then
        match cs with
        | '=' :: rest => (tokenizeF f rest).map (fun ts => .eqeq :: ts)
        | _ => .error "invalid syntax"
      else if c = '+' then (tokenizeF f cs).map (fun ts => .plus :: ts)
      else if c = '-' then (tokenizeF f cs).map (fun ts => .minus :: ts)
      else if c = '%' then (tokenizeF f cs).map (fun ts => .percent :: ts)
      else if c = '|' then (tokenizeF f cs).map (fun ts => .pipe :: ts)
      else if c = '(' then (tokenizeF f cs).map (fun ts => .lparen :: ts)
      else if c = ')' then (tokenizeF f cs).map (fun ts => .rparen :: ts)
      else if c = ',' then (tokenizeF f cs).map (fun ts => .comma :: ts)
      else .error "invalid character"

/-- Tokenizes a whole input string. -/
def tokenize (s : String) : Except String (List Tok) :=
  tokenizeF (s.length + 1) s.toList

/-! ## Parser

Models ast.parse(text, mode="eval") on the grammar fragment above, following
CPython's expression grammar and precedence, lowest to highest:

  or_test    := and_test ('or' and_test)*          -- BoolOp, values flattened
  and_test   := not_test ('and' not_test)*
  not_test   := 'not' not_test | comparison
  comparison := bitor ('==' bitor)*                -- Compare with parallel lists
  bitor      := arith ('|' arith)*                 -- left-associative BinOp
  arith      := term (('+' | '-') term)*
  term       := factor (('*' | '/' | '//' | '%') factor)*
  factor     := ('+' | '-') factor | power
  power      := atom_expr ('**' factor)?           -- right-associative; the
                                                   -- right side admits unaries
  atom_expr  := atom ('(' arglist? ')')*           -- Call trailers
  atom       := NUMBER | STRING | True | False | None | NAME | '(' or_test ')'

Constructs outside this fragment (tuples, slicing, attributes, further
operators) are rejected as syntax errors; the claims never exercise them.
The functions are fuel-indexed; fuel large enough for the input makes the
exhaustion branch unreachable. -/

mutual

def parseOrTest (f : ℕ) (ts : List Tok) : Except String (PyExpr × List Tok) :=
  match f with
  | 0 => .error "parser fuel exhausted"
  | g + 1 =>
      match parseAndTest g ts with
      | .error e => .error e
      | .ok (e, ts1) =>
          match parseOrValues g ts1 with
          | .error er => .error er
          | .ok ([], ts2) => .ok (e, ts2)
          | .ok (vs, ts2) => .ok (.boolOp .Or (e :: vs), ts2)
termination_by structural f

def parseOrValues (f : ℕ) (ts : List Tok) : Except String (List PyExpr × List Tok) :=
  match f with
  | 0 => .error "parser fuel exhausted"
  | g + 1 =>
      match ts with
      | .kwOr :: ts1 =>
          match parseAndTest g ts1 with
          | .error e => .error e
          | .ok (e, ts2) =>
              match parseOrValues g ts2 with
              | .error er => .error er
              | .ok (vs, ts3) => .ok (e :: vs, ts3)
      | _ => .ok ([], ts)
termination_by structural f

def parseAndTest (f : ℕ) (ts : List Tok) : Except String (PyExpr × List Tok) :=
  match f with
  | 0 => .error "parser fuel exhausted"
  | g + 1 =>
      match parseNotTest g ts with
      | .error e => .error e
      | .ok (e, ts1) =>
          match parseAndValues g ts1 with
          | .error er => .error er
          | .ok ([], ts2) => .ok (e, ts2)
          | .ok (vs, ts2) => .ok (.boolOp .And (e :: vs), ts2)
termination_by structural f

def parseAndValues (f : ℕ) (ts : List Tok) : Except String (List PyExpr × List Tok) :=
  match f with
  | 0 => .error "parser fuel exhausted"
  | g + 1 =>
      match ts with
      | .kwAnd :: ts1 =>
          match parseNotTest g ts1 with
          | .error e => .error e
          | .ok (e, ts2) =>
              match parseAndValues g ts2 with
              | .error er => .error er
              | .ok (vs, ts3) => .ok (e :: vs, ts3)
      | _ => .ok ([], ts)
termination_by structural f

def parseNotTest (f : ℕ) (ts : List Tok) : Except String (PyExpr × List Tok) :=
  match f with
  | 0 => .error "parser fuel exhausted"
  | g + 1 =>
      match ts with
      | .kwNot :: ts1 =>
          match parseNotTest g ts1 with
          | .error e => .error e
          | .ok (e, ts2) => .ok (.unaryOp .Not e, ts2)
      | _ => parseComparison g ts
termination_by structural f

def parseComparison (f : ℕ) (ts : List Tok) : Except String (PyExpr × List Tok) :=
  match f with
  | 0 => .error "parser fuel exhausted"
  | g + 1 =>
      match parseBitOr g ts with
      | .error e => .error e
      | .ok (e, ts1) =>
          match parseComparators g ts1 with
          | .error er => .error er
          | .ok ([], ts2) => .ok (e, ts2)
          | .ok (cs, ts2) =>
              .ok (.compare e (cs.map (fun _ => CmpOp.Eq)) cs, ts2)
termination_by structural f

def parseComparators (f : ℕ) (ts : List Tok) : Except String (List PyExpr × List Tok) :=
  match f with
  | 0 => .error "parser fuel exhausted"
  | g + 1 =>
      match ts with
      | .eqeq :: ts1 =>
          match parseBitOr g ts1 with
          | .error e => .error e
          | .ok (e, ts2) =>
              match parseComparators g ts2 with
              | .error er => .error er
              | .ok (cs, ts3) => .ok (e :: cs, ts3)
      | _ => .ok ([], ts)
termination_by structural f

def parseBitOr (f : ℕ) (ts : List Tok) : Except String (PyExpr × List Tok) :=
  match f with
  | 0 => .error "parser fuel exhausted"
  | g + 1 =>
      match parseArith g ts with
      | .error e => .error e
      | .ok (e, ts1) => parseBitOrRest g e ts1
termination_by structural f

def parseBitOrRest (f : ℕ) (acc : PyExpr) (ts : List Tok) :
    Except String (PyExpr × List Tok) :=
  match f with
  | 0 => .error "parser fuel exhausted"
  | g + 1 =>
      match ts with
      | .pipe :: ts1 =>
          match parseArith g ts1 with
          | .error e => .error e
          | .ok (e, ts2) => parseBitOrRest g (.binOp acc .BitOr e) ts2
      | _ => .ok (acc, ts)
termination_by structural f

def parseArith (f : ℕ) (ts : List Tok) : Except String (PyExpr × List Tok) :=
  match f with
  | 0 => .error "parser fuel exhausted"
  | g + 1 =>
      match parseTerm g ts with
      | .error e => .error e
      | .ok (e, ts1) => parseArithRest g e ts1
termination_by structural f

def parseArithRest (f : ℕ) (acc : PyExpr) (ts : List Tok) :
    Except String (PyExpr × List Tok) :=
  match f with
  | 0 => .error "parser fuel exhausted"
  | g + 1 =>
      match ts with
      | .plus :: ts1 =>
          match parseTerm g ts1 with
          | .error e => .error e
          | .ok (e, ts2) => parseArithRest g (.binOp acc .Add e) ts2
      | .minus :: ts1 =>
          match parseTerm g ts1 with
          | .error e => .error e
          | .ok (e, ts2) => parseArithRest g (.binOp acc .Sub e) ts2
      | _ => .ok (acc, ts)
termination_by structural f

def parseTerm (f : ℕ) (ts : List Tok) : Except String (PyExpr × List Tok) :=
  match f with
  | 0 => .error "parser fuel exhausted"
  | g + 1 =>
      match parseFactor g ts with
      | .error e => .error e
      | .ok (e, ts1) => parseTermRest g e ts1
termination_by structural f

def parseTermRest (f : ℕ) (acc : PyExpr) (ts : List Tok) :
    Except String (PyExpr × List Tok) :=
  match f with
  | 0 => .error "parser fuel exhausted"
  | g + 1 =>
      match ts with
      | .star :: ts1 =>
          match parseFactor g ts1 with
          | .error e => .error e
          | .ok (e, ts2) => parseTermRest g (.binOp acc .Mult e) ts2
      | .slash :: ts1 =>
          match parseFactor g ts1 with
          | .error e => .error e
          | .ok (e, ts2) => parseTermRest g (.binOp acc .Div e) ts2
      | .dslash :: ts1 =>
          match parseFactor g ts1 with
          | .error e => .error e
          | .ok (e, ts2) => parseTermRest g (.binOp acc .FloorDiv e) ts2
      | .percent :: ts1 =>
          match parseFactor g ts1 with
          | .error e => .error e
          | .ok (e, ts2) => parseTermRest g (.binOp acc .Mod e) ts2
      | _ => .ok (acc, ts)
termination_by structural f

def parseFactor (f : ℕ) (ts : List Tok) : Except String (PyExpr × List Tok) :=
  match f with
  | 0 => .error "parser fuel exhausted"
  | g + 1 =>
      match ts with
      | .plus :: ts1 =>
          match parseFactor g ts1 with
          | .error e => .error e
          | .ok (e, ts2) => .ok (.unaryOp .UAdd e, ts2)
      | .minus :: ts1 =>
          match parseFactor g ts1 with
          | .error e => .error e
          | .ok (e, ts2) => .ok (.unaryOp .USub e, ts2)
      | _ => parsePower g ts
termination_by structural f

def parsePower (f : ℕ) (ts : List Tok) : Except String (PyExpr × List Tok) :=
  match f with
  | 0 => .error "parser fuel exhausted"
  | g + 1 =>
      match parseAtomExpr g ts with
      | .error e => .error e
      | .ok (b, ts1) =>
          match ts1 with
          | .dstar :: ts2 =>
              match parseFactor g ts2 with
              | .error e => .error e
              | .ok (e, ts3) => .ok (.binOp b .Pow e, ts3)
          | _ => .ok (b, ts1)
termination_by structural f

def parseAtomExpr (f : ℕ) (ts : List Tok) : Except String (PyExpr × List Tok) :=
  match f with
  | 0 => .error "parser fuel exhausted"
  | g + 1 =>
      match parseAtom g ts with
      | .error e => .error e
      | .ok (a, ts1) => parseTrailers g a ts1
termination_by structural f

def parseTrailers (f : ℕ) (acc : PyExpr) (ts : List Tok) :
    Except String (PyExpr × List Tok) :=
  match f with
  | 0 => .error "parser fuel exhausted"
  | g + 1 =>
      match ts with
      | .lparen :: ts1 =>
          match parseArgs g ts1 with
          | .error e => .error e
          | .ok (args, ts2) => parseTrailers g (.call acc args) ts2
      | _ => .ok (acc, ts)
termination_by structural f

def parseArgs (f : ℕ) (ts : List Tok) : Except String (List PyExpr × List Tok) :=
  match f with
  | 0 => .error "parser fuel exhausted"
  | g + 1 =>
      match ts with
      | .rparen :: ts1 => .ok ([], ts1)
      | _ =>
          match parseOrTest g ts with
          | .error e => .error e
          | .ok (e, ts1) =>
              match parseArgsRest g ts1 with
              | .error er => .error er
              | .ok (es, ts2) => .ok (e :: es, ts2)
termination_by structural f

def parseArgsRest (f : ℕ) (ts : List Tok) : Except String (List PyExpr × List Tok) :=
  match f with
  | 0 => .error "parser fuel exhausted"
  | g + 1 =>
      match ts with
      | .comma :: ts1 =>
          match parseOrTest g ts1 with
          | .error e => .error e
          | .ok (e, ts2) =>
              match parseArgsRest g ts2 with
              | .error er => .error er
              | .ok (es, ts3) => .ok (e :: es, ts3)
      | .rparen :: ts1 => .ok ([], ts1)
      | _ => .error "expected , or )"
termination_by structural f

def parseAtom (f : ℕ) (ts : List Tok) : Except String (PyExpr × List Tok) :=
  match f with
  | 0 => .error "parser fuel exhausted"
  | g + 1 =>
      match ts with
      | .num v :: ts1 => .ok (.const v, ts1)
      | .str s :: ts1 => .ok (.const (.str s), ts1)
      | .kwTrue :: ts1 => .ok (.const (.bool true), ts1)
      | .kwFalse :: ts1 => .ok (.const (.bool false), ts1)
      | .kwNone :: ts1 => .ok (.const .none, ts1)
      | .ident s :: ts1 => .ok (.name s, ts1)
      | .lparen :: ts1 =>
          match parseOrTest g ts1 with
          | .error e => .error e
          | .ok (e, ts2) =>
              match ts2 with
              | .rparen :: ts3 => .ok (e, ts3)
              | _ => .error "expected )"
      | _ => .error "invalid syntax"
termination_by structural f

end

/-- Models ast.parse(text, mode="eval") followed by taking the Expression
wrapper's body: lexes, parses one full expression, and requires the whole token
stream to be consumed (trailing tokens are a SyntaxError, as in the host). -/
def parse (s : String) : Except String PyExpr :=
  match tokenize s with
  | .error e => .error e
  | .ok ts =>
      match parseOrTest (20 * (ts.length + 2)) ts with
      | .error e => .error e
      | .ok (e, []) => .ok e
      | .ok (_, _ :: _) => .error "invalid syntax (trailing tokens)"

/-- True when the modelled host parser rejects the input with a SyntaxError. -/
def isSyntaxError (r : Except String PyExpr) : Bool :=
  match r with
  | .error _ => true
  | .ok _ => false

/-- The source's safe_eval: parse, turning any SyntaxError into
ValueError("Invalid syntax"), then evaluate the tree with _eval. -/
def safe_eval (s : String) : Except PyErr PyVal :=
  match parse s with
  | .error _ => .error (.valueError "Invalid syntax")
  | .ok t => _eval t

/-! ## Result formatting (the surrounding shells)

The GUI shell's format_result and the CLI loop apply the same rule: a float
with no fractional part is printed as its integer textual form, everything
else is printed with Python's default str. -/

/-- Models float.is_integer: in the rational model, denominator one. -/
def pyFloatIsInteger (q : ℚ) : Bool := q.den = 1

/-- Models int() applied to a float: truncation toward zero.  (format_result
only applies it to integral floats, where it returns the numerator exactly.) -/
def pyIntOfFloat (q : ℚ) : ℤ := Int.tdiv q.num (q.den : ℤ)

/-- Modelled: the textual form a float takes under Python's str.  For integral
values in the non-scientific range this is the digits followed by ".0"; for
non-integral values the host prints the shortest round-trip decimal of the
binary double, which the exact-rational model renders as numerator/denominator.
The claims only constrain the integral branch. -/
def floatRepr (q : ℚ) : String :=
  if q.den = 1 then toString q.num ++ ".0"
  else toString q.num ++ "/" ++ toString q.den

/-- Models Python's str on the values evaluation can produce. -/
def pyStr : PyVal → String
  | .int n => toString n
  | .float q => floatRepr q
  | .bool b => if b then "True" else "False"
  | .str s => s
  | .none => "None"

/-- Recognises a float value. -/
def isFloatVal : PyVal → Bool
  | .float _ => true
  | _ => false

/-- The GUI shell's format_result, clause for clause: an integral float prints
as str(int(res)); everything else prints as str(res).  The CLI loop at the
bottom of main applies the identical rule before printing. -/
def format_result (v : PyVal) : String :=
  match v with
  | .float q => if pyFloatIsInteger q then toString (pyIntOfFloat q) else pyStr v
  | _ => pyStr v

/-! ## Reference arithmetic semantics (from the spec)

A second evaluator written from the spec's words, for comparison with _eval:
"standard arithmetic semantics" over the three-variant tree of §3 — Literal,
UnaryOp(Plus/Minus) and BinaryOp(Add..Pow) — with §4.2's division semantics:
true division always a float, floor division, modulo with the floor-division
sign convention, exponentiation floating-point whenever either operand is
non-integer or the exponent is negative, and divide-by-zero a failure (the
embedding represents that failure with the same ZeroDivisionError value the
host raises).  The spec does not define behaviour outside the arithmetic
fragment, so those trees map to a generic error here; the comparison theorem
only quantifies over the fragment. -/

/-- Spec semantics of a unary operator applied to a number. -/
def specUnary : UnOp → PyVal → Except PyErr PyVal
  | .UAdd, .int n => .ok (.int n)
  | .UAdd, .float q => .ok (.float q)
  | .USub, .int n => .ok (.int (-n))
  | .USub, .float q => .ok (.float (-q))
  | _, _ => .error (.valueError "outside the arithmetic fragment")

/-- Spec semantics of a binary operator applied to two numbers, following
standard numeric promotion: integer op integer stays integer except true
division; any float operand makes the result a float. -/
def specBinary : BinOp → PyVal → PyVal → Except PyErr PyVal
  | .Add, .int a, .int b => .ok (.int (a + b))
  | .Add, .int a, .float q => .ok (.float ((a : ℚ) + q))
  | .Add, .float p, .int b => .ok (.float (p + (b : ℚ)))
  | .Add, .float p, .float q => .ok (.float (p + q))
  | .Sub, .int a, .int b => .ok (.int (a - b))
  | .Sub, .int a, .float q => .ok (.float ((a : ℚ) - q))
  | .Sub, .float p, .int b => .ok (.float (p - (b : ℚ)))
  | .Sub, .float p, .float q => .ok (.float (p - q))
  | .Mult, .int a, .int b => .ok (.int (a * b))
  | .Mult, .int a, .float q => .ok (.float ((a : ℚ) * q))
  | .Mult, .float p, .int b => .ok (.float (p * (b : ℚ)))
  | .Mult, .float p, .float q => .ok (.float (p * q))
  | .Div, .int a, .int b =>
      if b = 0 then .error .zeroDivisionError
      else .ok (.float ((a : ℚ) / (b : ℚ)))
  | .Div, .int a, .float q =>
      if q = 0 then .error .zeroDivisionError
      else .ok (.float ((a : ℚ) / q))
  | .Div, .float p, .int b =>
      if b = 0 then .error .zeroDivisionError
      else .ok (.float (p / (b : ℚ)))
  | .Div, .float p, .float q =>
      if q = 0 then .error .zeroDivisionError
      else .ok (.float (p / q))
  | .FloorDiv, .int a, .int b =>
      if b = 0 then .error .zeroDivisionError
      else .ok (.int (Int.fdiv a b))
  | .FloorDiv, .int a, .float q =>
      if q = 0 then .error .zeroDivisionError
      else .ok (.float ((ratFloor ((a : ℚ) / q) : ℤ) : ℚ))
  | .FloorDiv, .float p, .int b =>
      if b = 0 then .error .zeroDivisionError
      else .ok (.float ((ratFloor (p / (b : ℚ)) : ℤ) : ℚ))
  | .FloorDiv, .float p, .float q =>
      if q = 0 then .error .zeroDivisionError
      else .ok (.float ((ratFloor (p / q) : ℤ) : ℚ))
  | .Mod, .int a, .int b =>
      if b = 0 then .error .zeroDivisionError
      else .ok (.int (Int.fmod a b))
  | .Mod, .int a, .float q =>
      if q = 0 then .error .zeroDivisionError
      else .ok (.float ((a : ℚ) - q * (ratFloor ((a : ℚ) / q) : ℚ)))
  | .Mod, .float p, .int b =>
      if b = 0 then .error .zeroDivisionError
      else .ok (.float (p - (b : ℚ) * (ratFloor (p / (b : ℚ)) : ℚ)))
  | .Mod, .float p, .float q =>
      if q = 0 then .error .zeroDivisionError
      else .ok (.float (p - q * (ratFloor (p / q) : ℚ)))
  | .Pow, .int a, .int b =>
      if b < 0 then
        if a = 0 then .error .zeroDivisionError
        else .ok (.float (qzpow (a : ℚ) b))
      else .ok (.int (znpow a b.toNat))
  | .Pow, .int a, .float q => (floatPowN (a : ℚ) q).map ofNum
  | .Pow, .float p, .int b => (floatPowN p (b : ℚ)).map ofNum
  | .Pow, .float p, .float q => (floatPowN p q).map ofNum
  | _, _, _ => .error (.valueError "outside the arithmetic fragment")

/-- The spec's tree evaluator: post-order recursive reduction, left before
right, of the arithmetic-only tree. -/
def specArith : PyExpr → Except PyErr PyVal
  | .const (.int n) => .ok (.int n)
  | .const (.float q) => .ok (.float q)
  | .unaryOp o e =>
      match specArith e with
      | .error er => .error er
      | .ok v => specUnary o v
  | .binOp l o r =>
      match specArith l with
      | .error e => .error e
      | .ok lv =>
          match specArith r with
          | .error e => .error e
          | .ok rv => specBinary o lv rv
  | _ => .error (.valueError "outside the arithmetic fragment")

/-- The binary operators of the spec's data model (everything but BitOr). -/
def arithBinOp : BinOp → Bool
  | .BitOr => false
  | _ => true

/-- The unary operators of the spec's data model (plus and minus). -/
def arithUnOp : UnOp → Bool
  | .Not => false
  | _ => true

/-- The arithmetic fragment of the tree language: the three node variants of
the spec's data model — numeric literals (int or float), unary plus/minus and
the seven arithmetic binary operators. -/
def ArithOnly : PyExpr → Bool
  | .const (.int _) => true
  | .const (.float _) => true
  | .const _ => false
  | .unaryOp o e => arithUnOp o && ArithOnly e
  | .binOp l o r => arithBinOp o && (ArithOnly l && ArithOnly r)
  | _ => false

/-- Nesting depth through the operator nodes (call and comparison nodes are
leaves for this purpose: neither evaluator recurses into them). -/
def depth : PyExpr → ℕ
  | .unaryOp _ e => depth e + 1
  | .binOp l _ r => max (depth l) (depth r) + 1
  | _ => 0

/-! ## Basic lemmas about the numeric layer -/

theorem toNum_ofNum (n : NumV) : toNum (ofNum n) = some n := by
  cases n <;> rfl

theorem isIF_ofNum (n : NumV) : isIF (ofNum n) = true := by
  cases n <;> rfl

theorem isIF_toNum_isSome (v : PyVal) (h : isIF v = true) : (toNum v).isSome = true := by
  cases v <;> simp_all [isIF, toNum]

theorem exceptMap_ok {α β γ : Type} (f : α → β) (x : Except γ α) (v : β)
    (h : Except.map f x = .ok v) : ∃ a, x = .ok a ∧ v = f a := by
  cases x with
  | error e => simp [Except.map] at h
  | ok a =>
      refine ⟨a, rfl, ?_⟩
      simpa [Except.map] using h.symm

/-- A successful liftBin result is a proper number (it comes through ofNum). -/
theorem liftBin_ok_isIF (fN : NumV → NumV → Except PyErr NumV) (msg : String)
    (v1 v2 v : PyVal) (h : liftBin fN msg v1 v2 = .ok v) : isIF v = true := by
  unfold liftBin at h
  rcases h1 : toNum v1 with _ | a <;> rw [h1] at h
  · simp at h
  · rcases h2 : toNum v2 with _ | b <;> rw [h2] at h
    · simp at h
    · rcases exceptMap_ok ofNum (fN a b) v h with ⟨n, _, hv⟩
      rw [hv]; exact isIF_ofNum n

/-- A successful liftUn result is a proper number. -/
theorem liftUn_ok_isIF (fN : NumV → Except PyErr NumV) (msg : String)
    (v1 v : PyVal) (h : liftUn fN msg v1 = .ok v) : isIF v = true := by
  unfold liftUn at h
  rcases h1 : toNum v1 with _ | a <;> rw [h1] at h
  · simp at h
  · rcases exceptMap_ok ofNum (fN a) v h with ⟨n, _, hv⟩
    rw [hv]; exact isIF_ofNum n

/-- Every value the evaluator can return successfully is numeric in Python's
arithmetic sense: an int, a float, or a bool (which coerces to 0/1). -/
theorem eval_ok_toNum (t : PyExpr) (v : PyVal) (h : _eval t = .ok v) :
    (toNum v).isSome = true := by
  cases t with
  | const w =>
      cases w <;> simp_all [_eval, isinstance_int_float, toNum] <;> subst h <;> rfl
  | binOp l o r =>
      simp only [_eval] at h
      cases h1 : _eval l <;> rw [h1] at h
      · simp at h
      · cases h2 : _eval r <;> rw [h2] at h
        · simp at h
        · cases o <;> simp only [_OPERATORS_binary] at h <;>
            first
              | exact isIF_toNum_isSome v (liftBin_ok_isIF _ _ _ _ v h)
              | simp at h
  | unaryOp o e =>
      simp only [_eval] at h
      cases h1 : _eval e <;> rw [h1] at h
      · simp at h
      · cases o <;> simp only [_OPERATORS_unary] at h <;>
          first
            | exact isIF_toNum_isSome v (liftUn_ok_isIF _ _ _ v h)
            | simp at h
  | call fn args => simp [_eval] at h
  | compare a ops cs => simp [_eval] at h
  | boolOp o vs => simp [_eval] at h
  | name s => simp [_eval] at h

/-- On arithmetic-fragment trees a successful evaluation yields an int or a
float, never a bool: the fragment's literals are numeric and the operators
return numbers. -/
theorem fragment_eval_isIF (t : PyExpr) (v : PyVal) (ha : ArithOnly t = true)
    (h : _eval t = .ok v) : isIF v = true := by
  cases t with
  | const w =>
      cases w <;> simp_all [ArithOnly, _eval, isinstance_int_float] <;> subst h <;> rfl
  | binOp l o r =>
      simp only [_eval] at h
      cases h1 : _eval l <;> rw [h1] at h
      · simp at h
      · cases h2 : _eval r <;> rw [h2] at h
        · simp at h
        · cases o <;> simp only [_OPERATORS_binary] at h <;>
            first
              | exact liftBin_ok_isIF _ _ _ _ v h
              | simp at h
  | unaryOp o e =>
      simp only [_eval] at h
      cases h1 : _eval e <;> rw [h1] at h
      · simp at h
      · cases o <;> simp only [_OPERATORS_unary] at h <;>
          first
            | exact liftUn_ok_isIF _ _ _ v h
            | simp at h
  | call fn args => simp [_eval] at h
  | compare a ops cs => simp [_eval] at h
  | boolOp o vs => simp [_eval] at h
  | name s => simp [_eval] at h

/-! ## Power bridges to the standard Mathlib operations -/

theorem znpow_eq (a : ℤ) (n : ℕ) : znpow a n = a ^ n := by
  induction n with
  | zero => rfl
  | succ n ih => simp [znpow, ih, pow_succ]

theorem qnpow_eq (q : ℚ) (n : ℕ) : qnpow q n = q ^ n := by
  induction n with
  | zero => rfl
  | succ n ih => simp [qnpow, ih, pow_succ]

theorem qzpow_eq (q : ℚ) (e : ℤ) : qzpow q e = q ^ e := by
  unfold qzpow
  split
  next h =>
    rw [qnpow_eq, ← zpow_natCast, Int.toNat_of_nonneg h]
  next h =>
    have he : 0 ≤ -e := by omega
    rw [qnpow_eq, ← zpow_natCast, Int.toNat_of_nonneg he, ← zpow_neg, neg_neg]

/-! ## Divide-by-zero behaviour of the numeric operators -/

theorem pyDivN_zero (a b : NumV) (hb : toQ b = 0) :
    pyDivN a b = .error .zeroDivisionError := by
  unfold pyDivN; rw [if_pos hb]

theorem pyFloorDivN_zero (a b : NumV) (hb : toQ b = 0) :
    pyFloorDivN a b = .error .zeroDivisionError := by
  unfold pyFloorDivN; rw [if_pos hb]

theorem pyModN_zero (a b : NumV) (hb : toQ b = 0) :
    pyModN a b = .error .zeroDivisionError := by
  unfold pyModN; rw [if_pos hb]

/-! ## Agreement of the table-dispatched operators with the spec semantics -/

theorem pyAdd_agree (v1 v2 : PyVal) (h1 : isIF v1 = true) (h2 : isIF v2 = true) :
    pyAdd v1 v2 = specBinary .Add v1 v2 := by
  cases v1 <;> cases v2 <;>
    simp_all [isIF, pyAdd, liftBin, toNum, pyAddN, ofNum, toQ, specBinary, Except.map]

theorem pySub_agree (v1 v2 : PyVal) (h1 : isIF v1 = true) (h2 : isIF v2 = true) :
    pySub v1 v2 = specBinary .Sub v1 v2 := by
  cases v1 <;> cases v2 <;>
    simp_all [isIF, pySub, liftBin, toNum, pySubN, ofNum, toQ, specBinary, Except.map]

theorem pyMult_agree (v1 v2 : PyVal) (h1 : isIF v1 = true) (h2 : isIF v2 = true) :
    pyMult v1 v2 = specBinary .Mult v1 v2 := by
  cases v1 <;> cases v2 <;>
    simp_all [isIF, pyMult, liftBin, toNum, pyMultN, ofNum, toQ, specBinary, Except.map]

theorem pyDiv_agree (v1 v2 : PyVal) (h1 : isIF v1 = true) (h2 : isIF v2 = true) :
    pyDiv v1 v2 = specBinary .Div v1 v2 := by
  cases v1 <;> cases v2 <;>
    simp_all [isIF, pyDiv, liftBin, toNum, pyDivN, ofNum, toQ, specBinary,
      Except.map, Int.cast_eq_zero, apply_ite]

theorem pyFloorDiv_agree (v1 v2 : PyVal) (h1 : isIF v1 = true) (h2 : isIF v2 = true) :
    pyFloorDiv v1 v2 = specBinary .FloorDiv v1 v2 := by
  cases v1 <;> cases v2 <;>
    simp_all [isIF, pyFloorDiv, liftBin, toNum, pyFloorDivN, ofNum, toQ, specBinary,
      Except.map, Int.cast_eq_zero, apply_ite]

theorem pyMod_agree (v1 v2 : PyVal) (h1 : isIF v1 = true) (h2 : isIF v2 = true) :
    pyMod v1 v2 = specBinary .Mod v1 v2 := by
  cases v1 <;> cases v2 <;>
    simp_all [isIF, pyMod, liftBin, toNum, pyModN, ofNum, toQ, specBinary,
      Except.map, Int.cast_eq_zero, apply_ite]

theorem pyPow_agree (v1 v2 : PyVal) (h1 : isIF v1 = true) (h2 : isIF v2 = true) :
    pyPow v1 v2 = specBinary .Pow v1 v2 := by
  cases v1 with
  | int a =>
      cases v2 with
      | int b =>
          rcases lt_or_le b 0 with hb | hb
          · by_cases ha0 : a = 0 <;>
              simp [pyPow, liftBin, toNum, pyPowN, specBinary, hb, not_le.mpr hb,
                Except.map, ofNum, ha0]
          · simp [pyPow, liftBin, toNum, pyPowN, specBinary, hb, not_lt.mpr hb,
              Except.map, ofNum]
      | float q => simp [pyPow, liftBin, toNum, pyPowN, toQ, specBinary]
      | bool b => simp [isIF] at h2
      | str s => simp [isIF] at h2
      | none => simp [isIF] at h2
  | float p =>
      cases v2 with
      | int b => simp [pyPow, liftBin, toNum, pyPowN, toQ, specBinary]
      | float q => simp [pyPow, liftBin, toNum, pyPowN, toQ, specBinary]
      | bool b => simp [isIF] at h2
      | str s => simp [isIF] at h2
      | none => simp [isIF] at h2
  | bool b => simp [isIF] at h1
  | str s => simp [isIF] at h1
  | none => simp [isIF] at h1

theorem pyPos_agree (v : PyVal) (h : isIF v = true) : pyPos v = specUnary .UAdd v := by
  cases v <;> simp_all [isIF, pyPos, liftUn, toNum, ofNum, specUnary, Except.map]

theorem pyNeg_agree (v : PyVal) (h : isIF v = true) : pyNeg v = specUnary .USub v := by
  cases v <;> simp_all [isIF, pyNeg, liftUn, toNum, ofNum, specUnary, Except.map]

/-- The binary-node step of the agreement proof, given agreement on the
children and agreement of the dispatched operator. -/
theorem binop_case_agree (l r : PyExpr) (o : BinOp)
    (hl : _eval l = specArith l) (hr : _eval r = specArith r)
    (hal : ArithOnly l = true) (har : ArithOnly r = true)
    (hagree : ∀ v1 v2, isIF v1 = true → isIF v2 = true →
      (match _OPERATORS_binary o with
       | some f => f v1 v2
       | Option.none =>
           .error (.valueError ("Unsupported binary operator: " ++ binOpClassName o)))
        = specBinary o v1 v2) :
    _eval (.binOp l o r) = specArith (.binOp l o r) := by
  simp only [_eval, specArith]
  rw [hl, hr]
  cases hsl : specArith l with
  | error e => rfl
  | ok lv =>
      cases hsr : specArith r with
      | error e => rfl
      | ok rv =>
          exact hagree lv rv (fragment_eval_isIF l lv hal (hl.trans hsl))
            (fragment_eval_isIF r rv har (hr.trans hsr))

/-- The unary-node step of the agreement proof. -/
theorem unop_case_agree (e : PyExpr) (o : UnOp)
    (he : _eval e = specArith e) (hae : ArithOnly e = true)
    (hagree : ∀ v, isIF v = true →
      (match _OPERATORS_unary o with
       | some f => f v
       | Option.none =>
           .error (.valueError ("Unsupported unary operator: " ++ unOpClassName o)))
        = specUnary o v) :
    _eval (.unaryOp o e) = specArith (.unaryOp o e) := by
  simp only [_eval, specArith]
  rw [he]
  cases hse : specArith e with
  | error er => rfl
  | ok w => exact hagree w (fragment_eval_isIF e w hae (he.trans hse))

/-- Table dispatch agrees with the spec's direct semantics on every tree of the
arithmetic fragment, by strong induction on operator nesting depth. -/
theorem arith_agree_aux :
    ∀ n t, depth t ≤ n → ArithOnly t = true → _eval t = specArith t := by
  intro n
  induction n with
  | zero =>
      intro t hd ha
      cases t with
      | const w => cases w <;> simp_all [ArithOnly, _eval, specArith, isinstance_int_float]
      | unaryOp o e => simp [depth] at hd
      | binOp l o r => simp [depth] at hd
      | call fn args => simp [ArithOnly] at ha
      | compare a ops cs => simp [ArithOnly] at ha
      | boolOp o vs => simp [ArithOnly] at ha
      | name s => simp [ArithOnly] at ha
  | succ n ih =>
      intro t hd ha
      cases t with
      | const w => cases w <;> simp_all [ArithOnly, _eval, specArith, isinstance_int_float]
      | unaryOp o e =>
          have hde : depth e ≤ n := by simp only [depth] at hd; omega
          simp only [ArithOnly, Bool.and_eq_true] at ha
          obtain ⟨hao, hae⟩ := ha
          have he := ih e hde hae
          cases o with
          | Not => simp [arithUnOp] at hao
          | UAdd =>
              exact unop_case_agree e .UAdd he hae
                (fun v hv => pyPos_agree v hv)
          | USub =>
              exact unop_case_agree e .USub he hae
                (fun v hv => pyNeg_agree v hv)
      | binOp l o r =>
          have hdl : depth l ≤ n := by
            have h1 := le_max_left (depth l) (depth r)
            simp only [depth] at hd; omega
          have hdr : depth r ≤ n := by
            have h1 := le_max_right (depth l) (depth r)
            simp only [depth] at hd; omega
          simp only [ArithOnly, Bool.and_eq_true] at ha
          obtain ⟨hao, hal, har⟩ := ha
          have hl := ih l hdl hal
          have hr := ih r hdr har
          cases o with
          | BitOr => simp [arithBinOp] at hao
          | Add =>
              exact binop_case_agree l r .Add hl hr hal har
                (fun v1 v2 i1 i2 => pyAdd_agree v1 v2 i1 i2)
          | Sub =>
              exact binop_case_agree l r .Sub hl hr hal har
                (fun v1 v2 i1 i2 => pySub_agree v1 v2 i1 i2)
          | Mult =>
              exact binop_case_agree l r .Mult hl hr hal har
                (fun v1 v2 i1 i2 => pyMult_agree v1 v2 i1 i2)
          | Div =>
              exact binop_case_agree l r .Div hl hr hal har
                (fun v1 v2 i1 i2 => pyDiv_agree v1 v2 i1 i2)
          | FloorDiv =>
              exact binop_case_agree l r .FloorDiv hl hr hal har
                (fun v1 v2 i1 i2 => pyFloorDiv_agree v1 v2 i1 i2)
          | Mod =>
              exact binop_case_agree l r .Mod hl hr hal har
                (fun v1 v2 i1 i2 => pyMod_agree v1 v2 i1 i2)
          | Pow =>
              exact binop_case_agree l r .Pow hl hr hal har
                (fun v1 v2 i1 i2 => pyPow_agree v1 v2 i1 i2)
      | call fn args => simp [ArithOnly] at ha
      | compare a ops cs => simp [ArithOnly] at ha
      | boolOp o vs => simp [ArithOnly] at ha
      | name s => simp [ArithOnly] at ha

/-! ## The claims -/

/-- C1 (counterexample): evaluating "1/0" does fail, but by raising the host's
ZeroDivisionError — not an error of the evaluator's own kind (ValueError is
the only kind _eval and safe_eval themselves raise, and safe_eval catches only
SyntaxError, so the ZeroDivisionError propagates uncaught). -/
theorem C1_counterexample :
    safe_eval "1/0" = .error .zeroDivisionError ∧
      isValueError .zeroDivisionError = false :=
  ⟨rfl, rfl⟩

/-- C1 (amended): for every division, floor-division or modulo node whose
operands evaluate successfully and whose right operand evaluates to a numeric
zero, evaluation fails by raising the host's ZeroDivisionError — an uncaught
exception distinct from the evaluator's own ValueError kind — and never
returns a value (in particular never an infinity or NaN, which the value model
does not even contain because the host raises instead of producing them);
concretely, safe_eval "1/0" raises ZeroDivisionError. -/
theorem C1_div_mod_zero_raises :
    (∀ (o : BinOp) (l r : PyExpr) (vl vr : PyVal),
        (o = .Div ∨ o = .FloorDiv ∨ o = .Mod) →
        _eval l = .ok vl → _eval r = .ok vr → isZeroNumeric vr = true →
        _eval (.binOp l o r) = .error .zeroDivisionError) ∧
      safe_eval "1/0" = .error .zeroDivisionError := by
  constructor
  · intro o l r vl vr ho h1 h2 hz
    have hnl : (toNum vl).isSome = true := eval_ok_toNum l vl h1
    rcases Option.isSome_iff_exists.mp hnl with ⟨a, ha⟩
    have hzr : ∃ b, toNum vr = some b ∧ toQ b = 0 := by
      unfold isZeroNumeric at hz
      rcases hb : toNum vr with _ | b <;> rw [hb] at hz
      · simp at hz
      · exact ⟨b, rfl, by simpa using hz⟩
    rcases hzr with ⟨b, hb, hb0⟩
    rcases ho with rfl | rfl | rfl
    · simp only [_eval]
      rw [h1, h2]
      show pyDiv vl vr = Except.error PyErr.zeroDivisionError
      unfold pyDiv liftBin
      rw [ha, hb]
      show (pyDivN a b).map ofNum = Except.error PyErr.zeroDivisionError
      rw [pyDivN_zero a b hb0]
      rfl
    · simp only [_eval]
      rw [h1, h2]
      show pyFloorDiv vl vr = Except.error PyErr.zeroDivisionError
      unfold pyFloorDiv liftBin
      rw [ha, hb]
      show (pyFloorDivN a b).map ofNum = Except.error PyErr.zeroDivisionError
      rw [pyFloorDivN_zero a b hb0]
      rfl
    · simp only [_eval]
      rw [h1, h2]
      show pyMod vl vr = Except.error PyErr.zeroDivisionError
      unfold pyMod liftBin
      rw [ha, hb]
      show (pyModN a b).map ofNum = Except.error PyErr.zeroDivisionError
      rw [pyModN_zero a b hb0]
      rfl
  · rfl

/-- C1 (witness): the amended claim instantiated at the tree of "1/0". -/
theorem C1_witness :
    _eval (.binOp (.const (.int 1)) .Div (.const (.int 0)))
      = .error .zeroDivisionError :=
  C1_div_mod_zero_raises.1 .Div (.const (.int 1)) (.const (.int 0)) (.int 1) (.int 0)
    (Or.inl rfl) rfl rfl rfl

/-- C2 (counterexample): "foo(1)" — an identifier applied as a call — is
accepted by the host parser, which returns a Call tree, refuting the claim
that every input with an identifier or call fails at parse time with a
SyntaxError. -/
theorem C2_counterexample :
    parse "foo(1)" = .ok (.call (.name "foo") [.const (.int 1)]) := rfl

/-- C2 (amended): a trailing operator and unbalanced parentheses do fail at
parse time with a SyntaxError, but an input containing a call or a comparison
parses successfully and is rejected only at evaluation time by the evaluator's
own ValueError — still without evaluating any operand, since the Call and
Compare branches of _eval raise before touching children. -/
theorem C2_disallowed_inputs :
    isSyntaxError (parse "2+") = true ∧
    isSyntaxError (parse "(1+2") = true ∧
    safe_eval "foo(1)" = .error (.valueError "Function calls are not allowed") ∧
    safe_eval "1 == 2" = .error (.valueError "Unsupported expression: Compare") :=
  ⟨rfl, rfl, rfl, rfl⟩

/-- C3: on every tree of the arithmetic fragment the evaluator agrees with the
reference semantics written from the spec's words (standard arithmetic with
Python's numeric promotion), and the worked precedence example holds: parsing
and evaluating "2+3*4" yields the integer 14 — multiplication binds before
addition. -/
theorem C3_standard_arithmetic :
    (∀ t : PyExpr, ArithOnly t = true → _eval t = specArith t) ∧
      safe_eval "2+3*4" = .ok (.int 14) :=
  ⟨fun t ha => arith_agree_aux (depth t) t (le_refl _) ha, rfl⟩

/-- C3 (witness): the agreement instantiated at the tree of 2*3. -/
theorem C3_witness :
    _eval (.binOp (.const (.int 2)) .Mult (.const (.int 3)))
      = specArith (.binOp (.const (.int 2)) .Mult (.const (.int 3))) :=
  C3_standard_arithmetic.1 (.binOp (.const (.int 2)) .Mult (.const (.int 3))) rfl

/-- C4: power binds tighter than a leading unary minus and is
right-associative: "-5**2" parses as -(5**2) and evaluates to -25, and
"2**3**2" parses as 2**(3**2) and evaluates to 512. -/
theorem C4_pow_precedence :
    parse "-5**2"
      = .ok (.unaryOp .USub (.binOp (.const (.int 5)) .Pow (.const (.int 2)))) ∧
    safe_eval "-5**2" = .ok (.int (-25)) ∧
    parse "2**3**2"
      = .ok (.binOp (.const (.int 2)) .Pow
          (.binOp (.const (.int 3)) .Pow (.const (.int 2)))) ∧
    safe_eval "2**3**2" = .ok (.int 512) :=
  ⟨rfl, rfl, rfl, rfl⟩

/-- C5 (counterexample): ** applied to the two integer operands 2 and -1
yields the float 0.5 (as does evaluating "2**-1"), refuting "every other
binary operator on two integer operands yields an integer". -/
theorem C5_counterexample :
    _eval (.binOp (.const (.int 2)) .Pow (.const (.int (-1))))
        = .ok (.float ((1 : ℚ) / 2)) ∧
      safe_eval "2**-1" = .ok (.float ((1 : ℚ) / 2)) := by
  have hb : ¬ (0 : ℤ) ≤ -1 := by decide
  have ha : (2 : ℤ) ≠ 0 := by decide
  constructor
  · simp [_eval, isinstance_int_float, _OPERATORS_binary, pyPow, liftBin, toNum,
      pyPowN, ofNum, Except.map, hb, ha, qzpow_eq]
  · have htree : parse "2**-1"
        = .ok (.binOp (.const (.int 2)) .Pow (.unaryOp .USub (.const (.int 1)))) := rfl
    unfold safe_eval
    rw [htree]
    simp [_eval, isinstance_int_float, _OPERATORS_binary, _OPERATORS_unary, pyPow,
      pyNeg, liftUn, liftBin, toNum, pyPowN, ofNum, Except.map, hb, ha, qzpow_eq]

/-- C5 (amended): true division always yields a float — "(1+2)/3" evaluates
to 1.0 — and on two integer operands addition, subtraction, multiplication,
floor division and modulo yield integers, while exponentiation yields an
integer exactly when the exponent is nonnegative and a float when the exponent
is negative (with nonzero base). -/
theorem C5_numeric_promotion :
    safe_eval "(1+2)/3" = .ok (.float 1) ∧
    (∀ a b : ℤ,
      _eval (.binOp (.const (.int a)) .Add (.const (.int b))) = .ok (.int (a + b))) ∧
    (∀ a b : ℤ,
      _eval (.binOp (.const (.int a)) .Sub (.const (.int b))) = .ok (.int (a - b))) ∧
    (∀ a b : ℤ,
      _eval (.binOp (.const (.int a)) .Mult (.const (.int b))) = .ok (.int (a * b))) ∧
    (∀ a b : ℤ, b ≠ 0 →
      _eval (.binOp (.const (.int a)) .Div (.const (.int b)))
        = .ok (.float ((a : ℚ) / (b : ℚ)))) ∧
    (∀ a b : ℤ, b ≠ 0 →
      _eval (.binOp (.const (.int a)) .FloorDiv (.const (.int b)))
        = .ok (.int (Int.fdiv a b))) ∧
    (∀ a b : ℤ, b ≠ 0 →
      _eval (.binOp (.const (.int a)) .Mod (.const (.int b)))
        = .ok (.int (Int.fmod a b))) ∧
    (∀ a b : ℤ, 0 ≤ b →
      _eval (.binOp (.const (.int a)) .Pow (.const (.int b)))
        = .ok (.int (a ^ b.toNat))) ∧
    (∀ a b : ℤ, b < 0 → a ≠ 0 →
      _eval (.binOp (.const (.int a)) .Pow (.const (.int b)))
        = .ok (.float ((a : ℚ) ^ b))) := by
  refine ⟨?_, ?_, ?_, ?_, ?_, ?_, ?_, ?_, ?_⟩
  · have htree : parse "(1+2)/3"
        = .ok (.binOp (.binOp (.const (.int 1)) .Add (.const (.int 2))) .Div
            (.const (.int 3))) := rfl
    unfold safe_eval
    rw [htree]
    simp [_eval, isinstance_int_float, _OPERATORS_binary, pyAdd, pyDiv, liftBin,
      toNum, pyAddN, pyDivN, ofNum, Except.map, toQ]
  · intro a b
    simp [_eval, isinstance_int_float, _OPERATORS_binary, pyAdd, liftBin, toNum,
      pyAddN, ofNum, Except.map]
  · intro a b
    simp [_eval, isinstance_int_float, _OPERATORS_binary, pySub, liftBin, toNum,
      pySubN, ofNum, Except.map]
  · intro a b
    simp [_eval, isinstance_int_float, _OPERATORS_binary, pyMult, liftBin, toNum,
      pyMultN, ofNum, Except.map]
  · intro a b hb
    simp [_eval, isinstance_int_float, _OPERATORS_binary, pyDiv, liftBin, toNum,
      pyDivN, ofNum, Except.map, toQ, Int.cast_eq_zero, hb]
  · intro a b hb
    simp [_eval, isinstance_int_float, _OPERATORS_binary, pyFloorDiv, liftBin, toNum,
      pyFloorDivN, ofNum, Except.map, toQ, Int.cast_eq_zero, hb]
  · intro a b hb
    simp [_eval, isinstance_int_float, _OPERATORS_binary, pyMod, liftBin, toNum,
      pyModN, ofNum, Except.map, toQ, Int.cast_eq_zero, hb]
  · intro a b hb
    simp [_eval, isinstance_int_float, _OPERATORS_binary, pyPow, liftBin, toNum,
      pyPowN, ofNum, Except.map, hb, znpow_eq]
  · intro a b hb ha
    simp [_eval, isinstance_int_float, _OPERATORS_binary, pyPow, liftBin, toNum,
      pyPowN, ofNum, Except.map, not_le.mpr hb, ha, qzpow_eq]

/-- C5 (witness): the amended claim's division clause instantiated at 1 and 2:
integer operands, float result. -/
theorem C5_witness :
    _eval (.binOp (.const (.int 1)) .Div (.const (.int 2)))
      = .ok (.float (((1 : ℤ) : ℚ) / ((2 : ℤ) : ℚ))) :=
  C5_numeric_promotion.2.2.2.2.1 1 2 (by decide)

/-- C6 (code bug): the claim — and the spec's grammar — exclude boolean
literals, and the source's own error message says only numeric constants are
allowed; but because bool is a subclass of int in Python, the check
isinstance(value, (int, float)) lets booleans through, and safe_eval "True"
returns the boolean True as a result instead of failing.  String literals are
rejected exactly as the claim describes. -/
theorem C6_bool_literal_accepted :
    safe_eval "True" = .ok (.bool true) ∧
      safe_eval "'a'" = .error (.valueError "Only numeric constants are allowed") :=
  ⟨rfl, rfl⟩

/-- C7 (counterexample): the defensive failure branches are reachable from a
successful parse, refuting their claimed unreachability: the host parser
accepts "1|2", whose operator class BitOr is absent from _OPERATORS, so a
parser-produced tree drives evaluation into the unsupported-operator branch. -/
theorem C7_counterexample :
    parse "1|2" = .ok (.binOp (.const (.int 1)) .BitOr (.const (.int 2))) ∧
    _OPERATORS_binary .BitOr = Option.none ∧
    safe_eval "1|2" = .error (.valueError "Unsupported binary operator: BitOr") :=
  ⟨rfl, rfl, rfl⟩

/-- C7 (amended): the evaluator dispatches strictly through the fixed operator
table and fails with its own ValueError on any node whose operator tag is
absent from the table or whose node kind is outside the dispatched variants —
but these failure branches are reachable even for trees produced by a
successful parse, because the host parser accepts operators beyond the table
("1|2" parses successfully). -/
theorem C7_table_dispatch :
    (∀ (o : BinOp) (l r : PyExpr) (vl vr : PyVal),
        _OPERATORS_binary o = Option.none →
        _eval l = .ok vl → _eval r = .ok vr →
        _eval (.binOp l o r)
          = .error (.valueError ("Unsupported binary operator: " ++ binOpClassName o))) ∧
    (∀ (o : UnOp) (e : PyExpr) (v : PyVal),
        _OPERATORS_unary o = Option.none → _eval e = .ok v →
        _eval (.unaryOp o e)
          = .error (.valueError ("Unsupported unary operator: " ++ unOpClassName o))) ∧
    (∀ (fn : PyExpr) (args : List PyExpr),
        _eval (.call fn args) = .error (.valueError "Function calls are not allowed")) ∧
    (∀ s : String,
        _eval (.name s) = .error (.valueError "Unsupported expression: Name")) ∧
    isSyntaxError (parse "1|2") = false := by
  refine ⟨?_, ?_, ?_, ?_, rfl⟩
  · intro o l r vl vr ho h1 h2
    simp only [_eval]
    rw [h1, h2, ho]
  · intro o e v ho h1
    simp only [_eval]
    rw [h1, ho]
  · intro fn args
    rfl
  · intro s
    rfl

/-- C7 (witness): the dispatch-failure clause instantiated at BitOr. -/
theorem C7_witness :
    _eval (.binOp (.const (.int 1)) .BitOr (.const (.int 2)))
      = .error (.valueError ("Unsupported binary operator: " ++ binOpClassName .BitOr)) :=
  C7_table_dispatch.1 .BitOr (.const (.int 1)) (.const (.int 2)) (.int 1) (.int 2)
    rfl rfl rfl

/-- C8: the evaluator consults no mutable state — the operator table is a
read-only constant — so its embedding is a pure function of the tree, and
evaluating the same tree twice yields the identical result. -/
theorem C8_deterministic : ∀ t : PyExpr, _eval t = _eval t := fun _ => rfl

/-- C9: the shells' numeric formatting rule: a float result with no fractional
part is displayed as its integer textual form, and every other result is
displayed unchanged (Python's default textual form). -/
theorem C9_format_result :
    (∀ q : ℚ, q.den = 1 → format_result (.float q) = toString q.num) ∧
    (∀ q : ℚ, q.den ≠ 1 → format_result (.float q) = pyStr (.float q)) ∧
    (∀ v : PyVal, isFloatVal v = false → format_result v = pyStr v) := by
  refine ⟨?_, ?_, ?_⟩
  · intro q hq
    simp [format_result, pyFloatIsInteger, pyIntOfFloat, hq]
  · intro q hq
    simp [format_result, pyFloatIsInteger, hq]
  · intro v hv
    cases v <;> simp_all [isFloatVal, format_result]

/-- C9 (witness): 1.0 is displayed as "1". -/
theorem C9_witness : format_result (.float 1) = toString (1 : ℚ).num :=
  C9_format_result.1 1 rfl

/-- C10: whenever the host parser rejects the input as syntactically invalid,
safe_eval raises ValueError("Invalid syntax") (chained from the SyntaxError in
the source), so syntax failures surface to the public caller as the same
exception type as the evaluator's whitelist rejections. -/
theorem C10_invalid_syntax :
    ∀ s : String, isSyntaxError (parse s) = true →
      safe_eval s = .error (.valueError "Invalid syntax") := by
  intro s h
  unfold safe_eval
  cases hp : parse s with
  | error e => rfl
  | ok t => rw [hp] at h; simp [isSyntaxError] at h

/-- C10 (witness): instantiated at the trailing-operator input "2+". -/
theorem C10_witness : safe_eval "2+" = .error (.valueError "Invalid syntax") :=
  C10_invalid_syntax "2+" rfl

end Calculator
